import Mathlib

/-!
Verification of the Manakalo mobile currency converter's core
(`ratesService`): the rate-acquisition/caching policy (`getRates`), the
pure conversion function (`convert`), the remote fetch (`fetchLiveRates`)
and the history helpers (`saveToHistory`, `getHistory`, `clearHistory`).

The JavaScript source is shallowly embedded: JS numbers are modelled as
exact rationals extended with NaN and signed infinities (`JNum`), the
SQLite rate-cache singleton row as an `Option Snapshot`, the network and
storage effects as explicit parameters (fetch outcome, write success), and
host builtins (`isNaN`, `parseFloat`, string-to-number coercion) as
executable models of their ECMAScript behaviour on the decimal forms the
app uses.
-/

/-- Model of a JavaScript number: NaN, a signed infinity (`true` = +∞),
or a finite value, idealised as an exact rational. -/
inductive JNum where
  | nan : JNum
  | inf : Bool → JNum
  | fin : ℚ → JNum
deriving DecidableEq, Repr

/-- Model of a JavaScript value as it can reach `convert`'s `amount`
argument: a string (from the text input), a number, `null` or
`undefined`. -/
inductive JSVal where
  | str : String → JSVal
  | num : JNum → JSVal
  | null : JSVal
  | undef : JSVal
deriving DecidableEq, Repr

/-- Numeric value of a digit list (most significant first); the caller
checks all characters are digits. -/
def digitsVal (cs : List Char) : ℕ :=
  cs.foldl (fun a c => a * 10 + (c.toNat - 48)) 0

/-- Whole-string parse of an unsigned decimal numeral (`"12"`, `"12.5"`,
`".5"`, `"12."`), the decimal forms of the ECMAScript
StringNumericLiteral grammar used by the app. -/
def parseDecCore (cs : List Char) : Option ℚ :=
  match cs.splitOn '.' with
  | [ip] =>
      if ip ≠ [] ∧ ip.all Char.isDigit then some (digitsVal ip) else none
  | [ip, fp] =>
      if (ip ≠ [] ∨ fp ≠ []) ∧ ip.all Char.isDigit ∧ fp.all Char.isDigit then
        some ((digitsVal ip : ℚ) + (digitsVal fp : ℚ) / (10 ^ fp.length))
      else none
  | _ => none

/-- Whitespace trim on both ends, on the character list of a string. -/
def jsTrim (s : String) : List Char :=
  ((s.toList.dropWhile Char.isWhitespace).reverse.dropWhile Char.isWhitespace).reverse

/-- Model of ECMAScript ToNumber on a string: trim, empty string is `0`,
`Infinity` forms, otherwise an optionally signed decimal numeral;
anything else is NaN. -/
def strToNumber (s : String) : JNum :=
  let t := jsTrim s
  if t = [] then .fin 0
  else if t = "Infinity".toList ∨ t = "+Infinity".toList then .inf true
  else if t = "-Infinity".toList then .inf false
  else
    match t with
    | '-' :: r => (match parseDecCore r with | some q => .fin (-q) | none => .nan)
    | '+' :: r => (match parseDecCore r with | some q => .fin q | none => .nan)
    | cs => (match parseDecCore cs with | some q => .fin q | none => .nan)

/-- Model of ECMAScript ToNumber on the values `convert` can receive:
numbers pass through, `null` coerces to `0`, `undefined` to NaN, strings
via the numeric-literal grammar. -/
def toNumber : JSVal → JNum
  | .num n => n
  | .null => .fin 0
  | .undef => .nan
  | .str s => strToNumber s

/-- Model of the JS global `isNaN`: ToNumber followed by a NaN test. -/
def jsIsNaN (v : JSVal) : Bool :=
  decide (toNumber v = JNum.nan)

/-- Model of JS `parseFloat` on a string: skip leading whitespace, read an
optional sign, then the longest `Infinity` or decimal-numeral prefix;
NaN when no digits were read. -/
def parseFloatStr (s : String) : JNum :=
  let cs := s.toList.dropWhile Char.isWhitespace
  let sr : Bool × List Char :=
    match cs with
    | '-' :: r => (true, r)
    | '+' :: r => (false, r)
    | r => (false, r)
  let neg := sr.1
  let cs := sr.2
  if cs.take 8 = "Infinity".toList then .inf (!neg)
  else
    let ip := cs.takeWhile Char.isDigit
    let r1 := cs.dropWhile Char.isDigit
    let fp : List Char :=
      match r1 with
      | '.' :: r => r.takeWhile Char.isDigit
      | _ => []
    if ip = [] ∧ fp = [] then .nan
    else
      let q : ℚ := (digitsVal ip : ℚ) + (digitsVal fp : ℚ) / (10 ^ fp.length)
      .fin (if neg then -q else q)

/-- Model of `parseFloat(amount)` for the values `convert` can receive:
a number stringifies and re-parses to itself, `null` and `undefined`
stringify to non-numeric words, a string is parsed by prefix. -/
def jsParseFloat : JSVal → JNum
  | .num n => n
  | .null => .nan
  | .undef => .nan
  | .str s => parseFloatStr s

/-- JS division on the number model: NaN propagates, `∞/∞` is NaN,
division by zero of a nonzero value gives a signed infinity, `0/0` is
NaN, finite-by-infinite is `0`. -/
def jdiv : JNum → JNum → JNum
  | .nan, _ => .nan
  | _, .nan => .nan
  | .inf _, .inf _ => .nan
  | .inf s, .fin b => .inf (s == decide (0 ≤ b))
  | .fin _, .inf _ => .fin 0
  | .fin a, .fin b =>
      if b = 0 then (if a = 0 then .nan else .inf (decide (0 ≤ a)))
      else .fin (a / b)

/-- JS multiplication on the number model: NaN propagates, infinity times
zero is NaN, otherwise signs multiply. -/
def jmul : JNum → JNum → JNum
  | .nan, _ => .nan
  | _, .nan => .nan
  | .inf s, .inf t => .inf (s == t)
  | .inf s, .fin b => if b = 0 then .nan else .inf (s == decide (0 < b))
  | .fin a, .inf t => if a = 0 then .nan else .inf (t == decide (0 < a))
  | .fin a, .fin b => .fin (a * b)

/-- Rate table: a JS object mapping currency codes to finite rate values,
modelled as an association list. -/
abbrev RateTable := List (String × ℚ)

/-- Model of the JS property read `rates[c]` as it feeds `/` and `*` in
`convert`: a present key yields its finite value; a missing key yields
`undefined`, which ToNumber inside the arithmetic operator turns into
NaN. -/
def getRate (m : RateTable) (c : String) : JNum :=
  match m.lookup c with
  | some q => .fin q
  | none => .nan

/-- Embedding of `convert(amount, fromCurrency, toCurrency, rates)`:
`if (!rates || isNaN(amount) || amount === '') return 0;` then
`(parseFloat(amount) / rates[from]) * rates[to]`. An absent `rates`
object (`undefined`/`null`, falsy) is `none`. -/
def convert (amount : JSVal) (fromCurrency toCurrency : String)
    (rates : Option RateTable) : JNum :=
  match rates with
  | none => .fin 0
  | some m =>
      if jsIsNaN amount = true ∨ amount = JSVal.str "" then .fin 0
      else jmul (jdiv (jsParseFloat amount) (getRate m fromCurrency))
                (getRate m toCurrency)

/-- One hour in milliseconds: `CACHE_DURATION_MS = 60 * 60 * 1000`. -/
def CACHE_DURATION_MS : ℤ := 60 * 60 * 1000

/-- The built-in fallback rate table `FALLBACK_RATES_FROM_USD`. -/
def FALLBACK_RATES_FROM_USD : RateTable :=
  [("USD", 1), ("EUR", 92 / 100), ("CNY", 724 / 100), ("MGA", 4500)]

/-- The single `rates_cache` row (`id = 1`): `base`, the JSON-encoded
rate mapping, and `fetched_at`. Timestamps are modelled as integer epoch
milliseconds (the code stores an ISO string and reads it back through
`new Date(...).getTime()`). -/
structure Snapshot where
  base : String
  rates : RateTable
  fetched_at : ℤ
deriving DecidableEq, Repr

/-- Value assembled by `loadRatesFromCache` from the cached row. -/
structure CacheInfo where
  rates : RateTable
  isFresh : Bool
  fetchedAt : ℤ
  ageMinutes : ℤ
deriving DecidableEq, Repr

/-- Embedding of `loadRatesFromCache`: read row `id = 1` (absent rows
give `null`), compute `ageMs = Date.now() - fetched_at`, freshness
`ageMs < CACHE_DURATION_MS`, and `ageMinutes = Math.floor(ageMs / 60000)`
(floor division on integers). -/
def loadRatesFromCache (now : ℤ) (store : Option Snapshot) : Option CacheInfo :=
  match store with
  | none => none
  | some row =>
      let ageMs := now - row.fetched_at
      some { rates := row.rates
             isFresh := decide (ageMs < CACHE_DURATION_MS)
             fetchedAt := row.fetched_at
             ageMinutes := Int.fdiv ageMs 60000 }

/-- Embedding of `saveRatesToCache`: whether row `id = 1` already exists
(UPDATE) or not (INSERT), the store afterwards holds exactly one row with
`base = 'USD'`, the given rates, and `fetched_at = now`. -/
def saveRatesToCache (now : ℤ) (rates : RateTable) (store : Option Snapshot) :
    Option Snapshot :=
  match store with
  | some _ => some { base := "USD", rates := rates, fetched_at := now }
  | none => some { base := "USD", rates := rates, fetched_at := now }

/-- Provenance tag of a resolved rate set. -/
inductive Source where
  | live : Source
  | cache : Source
  | fallback : Source
deriving DecidableEq, Repr

/-- Return value of `getRates`: rates, provenance, `fetchedAt`
(`null` is `none`) and `ageMinutes` (`null` is `none`). -/
structure RateResult where
  rates : RateTable
  source : Source
  fetchedAt : Option ℤ
  ageMinutes : Option ℤ
deriving DecidableEq, Repr

/-- Embedding of `getRates`. Effects are explicit: `now` is the clock,
`fetch` the outcome the remote source would produce (`Except.error` for a
network, timeout or HTTP error), `writeOk` whether the SQLite write in
`saveRatesToCache` succeeds (`false` means `db.runSync` throws a
`StorageError`; the exception is caught by the same `catch` as fetch
failures, since `saveRatesToCache` sits inside the `try` block), and
`store` the rate-cache row. Returns the result, the store after the
call, and the number of remote fetch attempts made. -/
def getRates (now : ℤ) (fetch : Except Unit RateTable) (writeOk : Bool)
    (store : Option Snapshot) : RateResult × Option Snapshot × ℕ :=
  let cached := loadRatesFromCache now store
  match cached with
  | some c =>
      if c.isFresh then
        ({ rates := c.rates, source := .cache,
           fetchedAt := some c.fetchedAt, ageMinutes := some c.ageMinutes },
         store, 0)
      else
        match fetch with
        | .ok rates =>
            if writeOk then
              ({ rates := rates, source := .live,
                 fetchedAt := some now, ageMinutes := some 0 },
               saveRatesToCache now rates store, 1)
            else
              ({ rates := c.rates, source := .cache,
                 fetchedAt := some c.fetchedAt, ageMinutes := some c.ageMinutes },
               store, 1)
        | .error _ =>
            ({ rates := c.rates, source := .cache,
               fetchedAt := some c.fetchedAt, ageMinutes := some c.ageMinutes },
             store, 1)
  | none =>
      match fetch with
      | .ok rates =>
          if writeOk then
            ({ rates := rates, source := .live,
               fetchedAt := some now, ageMinutes := some 0 },
             saveRatesToCache now rates store, 1)
          else
            ({ rates := FALLBACK_RATES_FROM_USD, source := .fallback,
               fetchedAt := none, ageMinutes := none },
             store, 1)
      | .error _ =>
          ({ rates := FALLBACK_RATES_FROM_USD, source := .fallback,
             fetchedAt := none, ageMinutes := none },
           store, 1)

/-- Parsed JSON body of the provider response; `rates` is `none` when the
object has no `rates` field (so `data.rates` is `undefined`). Rate
values are finite numbers keyed by currency code. -/
structure ProviderData where
  rates : Option RateTable
deriving DecidableEq, Repr

/-- HTTP response as `fetchLiveRates` sees it: the `ok` flag and the
outcome of `response.json()` (`Except.error` when the body does not
parse). -/
structure HttpResponse where
  ok : Bool
  body : Except Unit ProviderData
deriving Repr

/-- Ways the embedded `fetchLiveRates` can throw: transport failure or
timeout of `fetch` itself, the explicit `HTTP <status>` error, a JSON
parse failure in `response.json()`, and the TypeError raised by
`data.rates.USD` when `data.rates` is `undefined`. -/
inductive FetchError where
  | network : FetchError
  | http : FetchError
  | parse : FetchError
  | typeErr : FetchError
deriving DecidableEq, Repr

/-- Result object literal of `fetchLiveRates`: one property per supported
currency; a currency the provider omitted has value `undefined`
(`none`). -/
structure FetchedRates where
  USD : Option ℚ
  EUR : Option ℚ
  CNY : Option ℚ
  MGA : Option ℚ
deriving DecidableEq, Repr

/-- Embedding of `fetchLiveRates`: await the response (`Except.error` =
transport/timeout failure), throw on `!response.ok`, parse the body, then
return `{USD: data.rates.USD, EUR: ..., CNY: ..., MGA: ...}` — a plain
property extraction with no presence check on the individual
currencies. -/
def fetchLiveRates (resp : Except Unit HttpResponse) : Except FetchError FetchedRates :=
  match resp with
  | .error _ => .error .network
  | .ok r =>
      if !r.ok then .error .http
      else
        match r.body with
        | .error _ => .error .parse
        | .ok data =>
            match data.rates with
            | none => .error .typeErr
            | some m =>
                .ok { USD := m.lookup "USD", EUR := m.lookup "EUR",
                      CNY := m.lookup "CNY", MGA := m.lookup "MGA" }

/-- One row of `conversion_history`. -/
structure HistoryEntry where
  from_currency : String
  to_currency : String
  amount : ℚ
  result : ℚ
  rate : ℚ
deriving DecidableEq, Repr

/-- The `conversion_history` table, newest entry first (retrieval orders
by `converted_at` descending). -/
abbrev HistoryStore := List HistoryEntry

/-- Embedding of `saveToHistory`: the INSERT sits in a `try`/`catch`
that swallows the error, so the call always returns normally
(`Except.ok`); `storeOk = false` models `db.runSync` throwing a
`StorageError`, in which case the table is unchanged. -/
def saveToHistory (storeOk : Bool) (hist : HistoryStore) (e : HistoryEntry) :
    Except Unit HistoryStore :=
  if storeOk then .ok (e :: hist) else .ok hist

/-- Embedding of `getHistory`: the SELECT (`ORDER BY converted_at DESC
LIMIT ?`) sits in a `try`/`catch` returning `[]` on a storage error. -/
def getHistory (storeOk : Bool) (hist : HistoryStore) (limit : ℕ) :
    Except Unit (List HistoryEntry) :=
  if storeOk then .ok (hist.take limit) else .ok []

/-- Embedding of `clearHistory`: a bare `db.runSync('DELETE FROM
conversion_history')` with no `try`/`catch`, so a storage error
propagates to the caller (`Except.error`). -/
def clearHistory (storeOk : Bool) ( _hist : HistoryStore) : Except Unit HistoryStore :=
  if storeOk then .ok [] else .error ()

/-- C1: with an empty store, `getRates` makes exactly one remote fetch
attempt; on success the result has provenance `live` and the fetched
snapshot is persisted (with `base = 'USD'` and `fetchedAt = now`); on
failure the result has provenance `fallback` with `fetchedAt` and
`ageMinutes` absent, and nothing is persisted. Storage writes are assumed
healthy (`writeOk = true`); the write-failure axis is settled
separately. -/
theorem getRates_empty_store (now : ℤ) (fetch : Except Unit RateTable) :
    getRates now fetch true none =
      match fetch with
      | .ok r =>
          ({ rates := r, source := .live, fetchedAt := some now, ageMinutes := some 0 },
           some { base := "USD", rates := r, fetched_at := now }, 1)
      | .error _ =>
          ({ rates := FALLBACK_RATES_FROM_USD, source := .fallback,
             fetchedAt := none, ageMinutes := none },
           none, 1) := by
  cases fetch <;> rfl

/-- C2: when the persisted snapshot is fresh (`now − fetchedAt <
1 hour`), `getRates` returns its rates with provenance `cache` and the
elapsed `ageMinutes`, makes no remote fetch attempt (count `0`), and
leaves the store unchanged — for any fetch outcome and storage health. -/
theorem getRates_fresh_cache (now : ℤ) (snap : Snapshot)
    (h : now - snap.fetched_at < CACHE_DURATION_MS)
    (fetch : Except Unit RateTable) (writeOk : Bool) :
    getRates now fetch writeOk (some snap) =
      ({ rates := snap.rates, source := .cache, fetchedAt := some snap.fetched_at,
         ageMinutes := some (Int.fdiv (now - snap.fetched_at) 60000) },
       some snap, 0) := by
  simp [getRates, loadRatesFromCache, h]

/-- Witness for C2: a snapshot fetched 30 minutes ago is served from the
cache with `ageMinutes = 30`, no fetch attempt, store unchanged. -/
theorem getRates_fresh_cache_witness :
    (1800000 : ℤ) - (0 : ℤ) < CACHE_DURATION_MS ∧
    getRates 1800000 (.error ()) true (some ⟨"USD", [("USD", 1)], 0⟩) =
      ({ rates := [("USD", 1)], source := .cache, fetchedAt := some 0,
         ageMinutes := some 30 },
       some ⟨"USD", [("USD", 1)], 0⟩, 0) :=
  ⟨by decide, by
    rw [getRates_fresh_cache 1800000 ⟨"USD", [("USD", 1)], 0⟩ (by decide)
        (.error ()) true]
    rfl⟩

/-- C3: when the persisted snapshot is stale (age at least 1 hour) and
the remote fetch fails, `getRates` returns the stale snapshot's rates
with provenance `cache` and the actual elapsed `ageMinutes`, and the
store is left unchanged (one fetch attempt was made). -/
theorem getRates_stale_fetch_fail (now : ℤ) (snap : Snapshot) (writeOk : Bool)
    (h : CACHE_DURATION_MS ≤ now - snap.fetched_at) :
    getRates now (.error ()) writeOk (some snap) =
      ({ rates := snap.rates, source := .cache, fetchedAt := some snap.fetched_at,
         ageMinutes := some (Int.fdiv (now - snap.fetched_at) 60000) },
       some snap, 1) := by
  have hn : ¬(now - snap.fetched_at < CACHE_DURATION_MS) := not_lt.2 h
  simp [getRates, loadRatesFromCache, hn]

/-- Witness for C3: a 90-minute-old snapshot with a failing fetch is
served stale with `ageMinutes = 90` and remains in the store. -/
theorem getRates_stale_fetch_fail_witness :
    CACHE_DURATION_MS ≤ (5400000 : ℤ) - (0 : ℤ) ∧
    getRates 5400000 (.error ()) true (some ⟨"USD", [("USD", 1)], 0⟩) =
      ({ rates := [("USD", 1)], source := .cache, fetchedAt := some 0,
         ageMinutes := some 90 },
       some ⟨"USD", [("USD", 1)], 0⟩, 1) :=
  ⟨by decide, by
    rw [getRates_stale_fetch_fail 5400000 ⟨"USD", [("USD", 1)], 0⟩ true (by decide)]
    rfl⟩

/-- C4: when the persisted snapshot is stale (age at least 1 hour) and
the remote fetch succeeds (store writes healthy), `getRates` returns the
freshly fetched rates with provenance `live` and `ageMinutes = 0`, and
the store afterwards holds exactly the new snapshot with
`fetchedAt = now` — the old row is overwritten wholesale, not merged. -/
theorem getRates_stale_fetch_ok (now : ℤ) (snap : Snapshot) (r : RateTable)
    (h : CACHE_DURATION_MS ≤ now - snap.fetched_at) :
    getRates now (.ok r) true (some snap) =
      ({ rates := r, source := .live, fetchedAt := some now, ageMinutes := some 0 },
       some { base := "USD", rates := r, fetched_at := now }, 1) := by
  have hn : ¬(now - snap.fetched_at < CACHE_DURATION_MS) := not_lt.2 h
  simp [getRates, loadRatesFromCache, saveRatesToCache, hn]

/-- Witness for C4: a 90-minute-old snapshot is fully replaced by the
freshly fetched table, returned as `live` with `ageMinutes = 0`. -/
theorem getRates_stale_fetch_ok_witness :
    CACHE_DURATION_MS ≤ (5400000 : ℤ) - (0 : ℤ) ∧
    getRates 5400000 (.ok [("USD", 1), ("MGA", 4400)]) true
        (some ⟨"USD", [("USD", 1), ("MGA", 4500)], 0⟩) =
      ({ rates := [("USD", 1), ("MGA", 4400)], source := .live,
         fetchedAt := some 5400000, ageMinutes := some 0 },
       some ⟨"USD", [("USD", 1), ("MGA", 4400)], 5400000⟩, 1) :=
  ⟨by decide, by
    rw [getRates_stale_fetch_ok 5400000 ⟨"USD", [("USD", 1), ("MGA", 4500)], 0⟩
        [("USD", 1), ("MGA", 4400)] (by decide)]⟩

/-- C5 counterexample: with a stale snapshot holding `{USD: 5}`, a fetch
that succeeds with `{USD: 1, MGA: 4400}`, and a failing rate-cache write,
`getRates` does NOT return the just-fetched live rates: the write throws
inside the `try` block, the shared `catch` fires, and the stale cached
rates come back with provenance `cache` — refuting the claim that a
write failure leaves the returned rates and provenance unchanged. -/
theorem getRates_write_fail_counterexample :
    (getRates 7200000 (.ok [("USD", 1), ("MGA", 4400)]) false
        (some ⟨"USD", [("USD", 5)], 0⟩)).1.source = Source.cache ∧
    (getRates 7200000 (.ok [("USD", 1), ("MGA", 4400)]) false
        (some ⟨"USD", [("USD", 5)], 0⟩)).1.rates = [("USD", 5)] ∧
    Source.cache ≠ Source.live ∧
    ([("USD", 5)] : RateTable) ≠ [("USD", 1), ("MGA", 4400)] := by
  refine ⟨rfl, rfl, by decide, by decide⟩

/-- C5 amended: `saveRatesToCache` runs inside the same `try` block as
the fetch, so when the fetch succeeds but the rate-cache write fails the
exception is handled by the shared `catch`: `getRates` returns the stale
snapshot with provenance `cache` (store unchanged) when one exists, and
the built-in fallback with provenance `fallback` when the store is empty
— in neither case are the just-fetched live rates returned or
persisted. -/
theorem getRates_write_fail_behaviour (now : ℤ) (r : RateTable) (snap : Snapshot)
    (h : CACHE_DURATION_MS ≤ now - snap.fetched_at) :
    getRates now (.ok r) false (some snap) =
      ({ rates := snap.rates, source := .cache, fetchedAt := some snap.fetched_at,
         ageMinutes := some (Int.fdiv (now - snap.fetched_at) 60000) },
       some snap, 1) ∧
    getRates now (.ok r) false none =
      ({ rates := FALLBACK_RATES_FROM_USD, source := .fallback,
         fetchedAt := none, ageMinutes := none },
       none, 1) := by
  have hn : ¬(now - snap.fetched_at < CACHE_DURATION_MS) := not_lt.2 h
  exact ⟨by simp [getRates, loadRatesFromCache, hn], rfl⟩

/-- Witness for the amended C5 at a 2-hour-old snapshot. -/
theorem getRates_write_fail_behaviour_witness :
    CACHE_DURATION_MS ≤ (7200000 : ℤ) - (0 : ℤ) ∧
    getRates 7200000 (.ok [("USD", 1)]) false (some ⟨"USD", [("USD", 5)], 0⟩) =
      ({ rates := [("USD", 5)], source := .cache, fetchedAt := some 0,
         ageMinutes := some 120 },
       some ⟨"USD", [("USD", 5)], 0⟩, 1) ∧
    getRates 7200000 (.ok [("USD", 1)]) false none =
      ({ rates := FALLBACK_RATES_FROM_USD, source := .fallback,
         fetchedAt := none, ageMinutes := none },
       none, 1) :=
  ⟨by decide, by
    rw [(getRates_write_fail_behaviour 7200000 [("USD", 1)]
        ⟨"USD", [("USD", 5)], 0⟩ (by decide)).1]
    rfl,
   (getRates_write_fail_behaviour 7200000 [("USD", 1)]
        ⟨"USD", [("USD", 5)], 0⟩ (by decide)).2⟩

/-- C6: `convert` returns `0` whenever the rate table is absent, the
amount is not a valid numeric value (ECMAScript `isNaN(amount)` is true),
or the amount is the empty string — regardless of the currency
arguments. The embedding is a total function, so no exception is raised
on any such input. -/
theorem convert_invalid_input_zero (amount : JSVal) (fromCurrency toCurrency : String)
    (rates : Option RateTable)
    (h : rates = none ∨ jsIsNaN amount = true ∨ amount = JSVal.str "") :
    convert amount fromCurrency toCurrency rates = JNum.fin 0 := by
  rcases h with h | h | h
  · subst h; rfl
  · cases rates with
    | none => rfl
    | some m => simp [convert, h]
  · cases rates with
    | none => rfl
    | some m => simp [convert, h]

/-- Witness for C6: the non-numeric amount `"abc"` converts to `0` even
with a populated rate table. -/
theorem convert_invalid_input_zero_witness :
    ((some [("USD", (1 : ℚ))] : Option RateTable) = none ∨
      jsIsNaN (JSVal.str "abc") = true ∨ JSVal.str "abc" = JSVal.str "") ∧
    convert (JSVal.str "abc") "USD" "EUR" (some [("USD", 1)]) = JNum.fin 0 :=
  ⟨by decide,
   convert_invalid_input_zero (JSVal.str "abc") "USD" "EUR" (some [("USD", 1)])
     (by decide)⟩

/-- C8 counterexample: a response that is HTTP-ok and parses, whose
`rates` object holds `USD`, `EUR` and `CNY` but no `MGA`: `fetchLiveRates`
does not fail with any error — it succeeds and returns a mapping whose
`MGA` entry is `undefined`, refuting both halves of the claim (no
`DataError` on a missing supported currency, and a returned mapping may
lack an entry for a supported currency). -/
theorem fetchLiveRates_missing_currency_counterexample :
    fetchLiveRates (.ok ⟨true, .ok ⟨some [("USD", 1), ("EUR", 1), ("CNY", 1)]⟩⟩) =
      .ok ⟨some 1, some 1, some 1, none⟩ := by
  rfl

/-- C8 amended: `fetchLiveRates` fails only when the transport or
timeout fails, the HTTP status is not ok, the body does not parse, or the
parsed body has no `rates` object at all (the property read then throws);
whenever the `rates` object is present it succeeds and returns exactly
the four supported-currency lookups — extra provider fields are
discarded, and a supported currency the provider omitted comes back as an
`undefined` entry rather than causing a `DataError`. -/
theorem fetchLiveRates_behaviour (m : RateTable) :
    fetchLiveRates (.ok ⟨true, .ok ⟨some m⟩⟩) =
      .ok { USD := m.lookup "USD", EUR := m.lookup "EUR",
            CNY := m.lookup "CNY", MGA := m.lookup "MGA" } ∧
    fetchLiveRates (.error ()) = .error .network ∧
    (∀ body : Except Unit ProviderData,
      fetchLiveRates (.ok ⟨false, body⟩) = .error .http) ∧
    fetchLiveRates (.ok ⟨true, .error ()⟩) = .error .parse ∧
    fetchLiveRates (.ok ⟨true, .ok ⟨none⟩⟩) = .error .typeErr :=
  ⟨rfl, rfl, fun _ => rfl, rfl, rfl⟩

/-- C9 counterexample: `clearHistory` has no `try`/`catch`, so a storage
failure during the DELETE propagates to the caller instead of being
suppressed — refuting the claim that every History Recorder operation
catches storage failures internally. -/
theorem clearHistory_propagates_counterexample :
    clearHistory false [] = .error () := by
  rfl

/-- C9 amended: `saveToHistory` and `getHistory` catch storage failures
internally and always return normally (`saveToHistory` leaves the table
unchanged on failure; `getHistory` returns the empty sequence), and
`clearHistory` empties the table when storage works — but `clearHistory`
has no handler, so on a storage failure it propagates the error to its
caller. -/
theorem history_error_handling (storeOk : Bool) (hist : HistoryStore)
    (e : HistoryEntry) (limit : ℕ) :
    saveToHistory storeOk hist e = .ok (if storeOk then e :: hist else hist) ∧
    getHistory storeOk hist limit = .ok (if storeOk then hist.take limit else []) ∧
    clearHistory true hist = .ok [] ∧
    clearHistory false hist = .error () := by
  cases storeOk <;> exact ⟨rfl, rfl, rfl, rfl⟩

/-- Helper: JS division yields NaN whenever the divisor is NaN. -/
theorem jdiv_nan_right (x : JNum) : jdiv x .nan = .nan := by
  cases x <;> rfl

/-- Helper: JS multiplication yields NaN whenever the left factor is NaN. -/
theorem jmul_nan_left (y : JNum) : jmul .nan y = .nan := by
  cases y <;> rfl

/-- Helper: JS multiplication yields NaN whenever the right factor is NaN. -/
theorem jmul_nan_right (x : JNum) : jmul x .nan = .nan := by
  cases x <;> rfl

/-- C10: when the rate table is present and the amount passes the guard
(valid numeric, not the empty string) but the `from` or the `to` currency
has no entry in the table, `convert` neither returns `0` nor raises an
error: the arithmetic runs on an `undefined` operand and the result is
NaN, so the silent-zero guarantee does not extend to unknown currency
codes. -/
theorem convert_missing_currency_nan (amount : JSVal) (fromCurrency toCurrency : String)
    (m : RateTable)
    (h1 : jsIsNaN amount = false) (h2 : amount ≠ JSVal.str "")
    (h3 : m.lookup fromCurrency = none ∨ m.lookup toCurrency = none) :
    convert amount fromCurrency toCurrency (some m) = JNum.nan ∧
    JNum.nan ≠ JNum.fin 0 := by
  refine ⟨?_, by decide⟩
  rcases h3 with h3 | h3
  · have hf : getRate m fromCurrency = .nan := by simp [getRate, h3]
    simp [convert, h1, h2, hf, jdiv_nan_right, jmul_nan_left]
  · have ht : getRate m toCurrency = .nan := by simp [getRate, h3]
    simp [convert, h1, h2, ht, jmul_nan_right]

/-- Witness for C10: converting the number `5` from the unknown code
`"ABC"` with a table that only knows `USD` yields NaN, not `0`. -/
theorem convert_missing_currency_nan_witness :
    jsIsNaN (JSVal.num (JNum.fin 5)) = false ∧
    JSVal.num (JNum.fin 5) ≠ JSVal.str "" ∧
    (([("USD", (2 : ℚ))] : RateTable).lookup "ABC" = none ∨
      ([("USD", (2 : ℚ))] : RateTable).lookup "USD" = none) ∧
    (convert (JSVal.num (JNum.fin 5)) "ABC" "USD" (some [("USD", 2)]) = JNum.nan ∧
      JNum.nan ≠ JNum.fin 0) :=
  ⟨by decide, by decide, by decide,
   convert_missing_currency_nan (JSVal.num (JNum.fin 5)) "ABC" "USD" [("USD", 2)]
     (by decide) (by decide) (by decide)⟩
